import Mathlib

/-!
Shallow embedding of `src/langchain/src/vectorstores/postgres.ts`
(`PostgresStore`): the batch upserter (`addDocuments` / `addVectors`),
the similarity searcher (`similaritySearchVectorWithScore`) and the
construction helpers (`fromTexts`, `fromDocuments`, `fromExistingIndex`).

Modelling conventions:
- JS numbers carried by embeddings and similarity scores are modelled as
  `Rat` (no claim computes real arithmetic on them; they are data).
- The metadata object is modelled as a JSON-like association list.
- The embedding provider and the store are external collaborators: they are
  parameters of the runs (`embedDocuments : List String → List (List Rat)`,
  a per-write outcome schedule `storeOk : Nat → Except String Unit`, and the
  store's similarity operator `sim`).
- Effects are made observable as traces: the list of chunk writes issued, the
  embedding-provider calls made, the number of store queries issued by a
  search, and any store error the code swallowed.
-/

namespace PostgresVS

/-- JSON-like metadata mapping attached to a document / stored row. -/
abbrev Metadata := List (String × String)

/-- Modelled from the spec: the `Document` class (`../document.js`) is not
under `src/`; spec section 3 gives `{ content: text, metadata: mapping,
id: optional stable integer }`.  The source constructs documents with
`new Document({ metadata, pageContent })`, which leaves `id` unset. -/
structure Document where
  pageContent : String
  metadata : Metadata
  id : Option Nat := none
deriving Repr, DecidableEq

/-- A row prepared for writing, as built in `addVectors`:
`{ content: documents[idx].pageContent, embedding, metadata: documents[idx].metadata }`. -/
structure Row where
  content : String
  embedding : List Rat
  metadata : Metadata
deriving Repr, DecidableEq

/-- Outcome of a JS async method: either it resolves, or it rejects with a
thrown value — a `TypeError` (reading a property of `undefined`) or an
`Error` carrying a message. -/
inductive JsError where
  | typeError
  | error (msg : String)
deriving Repr, DecidableEq

deriving instance DecidableEq for Except

/-- The row construction of `addVectors`:
`vectors.map((embedding, idx) => ({ content: documents[idx].pageContent,
embedding, metadata: documents[idx].metadata }))`, carrying the running
index `idx`.  When `idx` is out of range, `documents[idx]` is `undefined`
and reading `.pageContent` throws (modelled as `none`). -/
def makeRowsAux (documents : List Document) : List (List Rat) → Nat → Option (List Row)
  | [], _ => some []
  | v :: vs, idx =>
    match documents[idx]? with
    | none => none
    | some d =>
      (makeRowsAux documents vs (idx + 1)).map fun rest =>
        ⟨d.pageContent, v, d.metadata⟩ :: rest

/-- Rows formed by `addVectors` from `vectors` and `documents` (index-paired
over the `vectors` array, starting at index 0). -/
def makeRows (vectors : List (List Rat)) (documents : List Document) : Option (List Row) :=
  makeRowsAux documents vectors 0

/-- `const chunkSize = 200;` in `addVectors`. -/
def chunkSize : Nat := 200

/-- The chunking loop of `addVectors`, written with an explicit iteration
bound (`fuel`) so that it is structurally recursive and computes: each
iteration takes `rows.slice(i, i + chunkSize)` and advances past it.  For a
positive `n`, `l.length` iterations always suffice. -/
def chunksOfF (n : Nat) : Nat → List α → List (List α)
  | 0, _ => []
  | _ + 1, [] => []
  | fuel + 1, x :: xs => (x :: xs).take n :: chunksOfF n fuel ((x :: xs).drop n)

/-- The chunking loop of `addVectors`:
`for (let i = 0; i < rows.length; i += chunkSize) { const chunk = rows.slice(i, i + chunkSize); ... }`
(the source's `chunkSize` is 200). -/
def chunksOf (n : Nat) (l : List α) : List (List α) :=
  chunksOfF n l.length l

/-- Observable effects of one upsert call. -/
structure UpsertTrace where
  /-- Arguments of the `embedDocuments` calls made, in order. -/
  embedCalls : List (List String)
  /-- The chunks submitted to the store as write statements, in submission
  order (the loop awaits each write before issuing the next). -/
  writes : List (List Row)
  /-- A store error caught by the empty `catch` block, if any. -/
  swallowed : Option String
  /-- What the returned promise does. -/
  result : Except JsError Unit
deriving Repr, DecidableEq

/-- Sequential submission of the chunks: chunk `i` is submitted, and on
failure the loop stops (the thrown error escapes the loop into the `catch`).
Returns the chunks actually submitted and the error, if one occurred. -/
def issueChunks (storeOk : Nat → Except String Unit) :
    List (List Row) → Nat → List (List Row) × Option String
  | [], _ => ([], none)
  | c :: cs, i =>
    match storeOk i with
    | .ok _ =>
      let r := issueChunks storeOk cs (i + 1)
      (c :: r.1, r.2)
    | .error e => ([c], some e)

/-- `addVectors(vectors, documents)`: build the rows (outside the `try`, so an
out-of-range index rejects the promise with a `TypeError`), then chunk them by
200 and write chunk by chunk inside `try { ... } catch (error) { /* empty */ }`
— any store error is swallowed and the call resolves successfully. -/
def addVectorsRun (storeOk : Nat → Except String Unit)
    (vectors : List (List Rat)) (documents : List Document) : UpsertTrace :=
  match makeRows vectors documents with
  | none => { embedCalls := [], writes := [], swallowed := none, result := .error .typeError }
  | some rows =>
    let issued := issueChunks storeOk (chunksOf chunkSize rows) 0
    { embedCalls := [], writes := issued.1, swallowed := issued.2, result := .ok () }

/-- `addDocuments(documents)`: map documents to their texts, call
`this.embeddings.embedDocuments(texts)` once (unconditionally, also on an
empty input), and delegate to `addVectors`. -/
def addDocumentsRun (embedDocuments : List String → List (List Rat))
    (storeOk : Nat → Except String Unit) (documents : List Document) : UpsertTrace :=
  let texts := documents.map (·.pageContent)
  let t := addVectorsRun storeOk (embedDocuments texts) documents
  { t with embedCalls := [texts] }

/-! ## Similarity searcher -/

/-- A persisted row of the table, in the store's row order. -/
structure StoredRow where
  id : Nat
  content : String
  metadata : Metadata
  embedding : List Rat
deriving Repr, DecidableEq

/-- The `SearchEmbeddingsResponse` interface of the source: the shape of the
rows the similarity query returns. -/
structure SearchEmbeddingsResponse where
  id : Nat
  content : String
  metadata : Metadata
  similarity : Rat
deriving Repr, DecidableEq

/-- Store-side semantics of the statement the source issues:
`SELECT *, id, content, metadata, 1 - (documents.embedding <=> [q]) as similarity
FROM tableName LIMIT k`.  There is no `ORDER BY` and no `WHERE`, so the store
returns the first `k` rows in its row order, each with the computed
similarity.  `sim e q` abstracts the store's `1 - (e <=> q)` expression. -/
def runSimilarityQuery (sim : List Rat → List Rat → Rat)
    (table : List StoredRow) (q : List Rat) (k : Nat) : List SearchEmbeddingsResponse :=
  (table.take k).map fun r => ⟨r.id, r.content, r.metadata, sim r.embedding q⟩

/-- The per-row result mapping of `similaritySearchVectorWithScore`:
`[new Document({ metadata: resp.metadata, pageContent: resp.content }), resp.similarity]`.
The row's `id` is not read. -/
def mapSearchRow (resp : SearchEmbeddingsResponse) : Document × Rat :=
  ({ pageContent := resp.content, metadata := resp.metadata }, resp.similarity)

/-- The `try`/`catch` body of `similaritySearchVectorWithScore`: on a query
outcome, map the returned rows; on a thrown error, rethrow a new `Error`
whose message is `"Error searching for documents: " + error`. -/
def similaritySearchVectorWithScore
    (queryOutcome : Except String (List SearchEmbeddingsResponse)) :
    Except JsError (List (Document × Rat)) :=
  match queryOutcome with
  | .ok searches => .ok (searches.map mapSearchRow)
  | .error e => .error (.error ("Error searching for documents: " ++ e))

/-- Observable effects of one search call. -/
structure SearchTrace where
  /-- How many queries were issued to the store. -/
  storeCalls : Nat
  result : Except JsError (List (Document × Rat))
deriving Repr, DecidableEq

/-- One full `similaritySearchVectorWithScore(query, k)` call against a store
holding `table`: the source builds the statement and calls
`this.client.query(...)` unconditionally — exactly one store round-trip,
with no short-circuit for any `k`.  `store = .error e` models a query
execution failure. -/
def searchRun (sim : List Rat → List Rat → Rat)
    (store : Except String (List StoredRow)) (q : List Rat) (k : Nat) : SearchTrace :=
  { storeCalls := 1
    result := similaritySearchVectorWithScore
      (store.map fun table => runSimilarityQuery sim table q k) }

/-! ## Construction helpers -/

/-- `PostgresLibArgs`: `tableName` is optional. -/
structure PostgresLibArgs where
  tableName : Option String
deriving Repr, DecidableEq

/-- The configured store: the constructor keeps
`this.tableName = args.tableName || "documents"` — the JS `||` falls back to
`"documents"` when `tableName` is absent (`undefined`) or the empty string. -/
structure PostgresStore where
  tableName : String
deriving Repr, DecidableEq

/-- The `PostgresStore` constructor's table-name resolution. -/
def PostgresStore.make (args : PostgresLibArgs) : PostgresStore :=
  { tableName :=
      match args.tableName with
      | none => "documents"
      | some s => if s = "" then "documents" else s }

/-- The document-building loop of `fromTexts`: per-document metadata when
`metadatas` is an array (an out-of-range index yields `undefined`, which the
`Document` constructor defaults to the empty mapping), shared metadata
otherwise. -/
def buildDocs (texts : List String) (metadatas : Metadata ⊕ List Metadata) : List Document :=
  (List.range texts.length).map fun i =>
    { pageContent := texts.getD i ""
      metadata :=
        match metadatas with
        | .inl shared => shared
        | .inr perDoc => perDoc.getD i []
      id := none }

/-- `fromDocuments`: construct the instance, then `addDocuments(docs)`. -/
def fromDocuments (embedDocuments : List String → List (List Rat))
    (storeOk : Nat → Except String Unit) (docs : List Document)
    (dbConfig : PostgresLibArgs) : PostgresStore × UpsertTrace :=
  (PostgresStore.make dbConfig, addDocumentsRun embedDocuments storeOk docs)

/-- `fromTexts`: build documents from texts and metadata, then delegate to
`fromDocuments`. -/
def fromTexts (texts : List String) (metadatas : Metadata ⊕ List Metadata)
    (embedDocuments : List String → List (List Rat))
    (storeOk : Nat → Except String Unit)
    (dbConfig : PostgresLibArgs) : PostgresStore × UpsertTrace :=
  fromDocuments embedDocuments storeOk (buildDocs texts metadatas) dbConfig

/-- `fromExistingIndex`: construct the instance without writing. -/
def fromExistingIndex (dbConfig : PostgresLibArgs) : PostgresStore :=
  PostgresStore.make dbConfig

/-! ## Helper lemmas -/

theorem flatten_chunksOfF (n : Nat) (hn : n ≠ 0) (fuel : Nat) (l : List α)
    (hfuel : l.length ≤ fuel) : (chunksOfF n fuel l).flatten = l := by
  induction fuel generalizing l with
  | zero =>
    have : l = [] := List.length_eq_zero.mp (Nat.le_zero.mp hfuel)
    subst this
    rfl
  | succ fuel ih =>
    match l with
    | [] => rfl
    | x :: xs =>
      rw [chunksOfF, List.flatten_cons, ih ((x :: xs).drop n)
        (by simp only [List.length_drop, List.length_cons]
            simp only [List.length_cons] at hfuel
            omega)]
      exact List.take_append_drop n (x :: xs)

theorem flatten_chunksOf (n : Nat) (hn : n ≠ 0) (l : List α) : (chunksOf n l).flatten = l :=
  flatten_chunksOfF n hn l.length l le_rfl

theorem length_chunksOfF (n : Nat) (hn : n ≠ 0) (fuel : Nat) (l : List α)
    (hfuel : l.length ≤ fuel) :
    (chunksOfF n fuel l).length = (l.length + (n - 1)) / n := by
  induction fuel generalizing l with
  | zero =>
    have : l = [] := List.length_eq_zero.mp (Nat.le_zero.mp hfuel)
    subst this
    simp only [chunksOfF, List.length_nil, Nat.zero_add]
    exact (Nat.div_eq_of_lt (by omega)).symm
  | succ fuel ih =>
    match l with
    | [] =>
      simp only [chunksOfF, List.length_nil, Nat.zero_add]
      exact (Nat.div_eq_of_lt (by omega)).symm
    | x :: xs =>
      rw [chunksOfF]
      simp only [List.length_cons]
      rw [ih ((x :: xs).drop n)
        (by simp only [List.length_drop, List.length_cons]
            simp only [List.length_cons] at hfuel
            omega)]
      simp only [List.length_drop, List.length_cons]
      rcases le_or_lt n (xs.length + 1) with h | h
      · have hm : xs.length + 1 + (n - 1) = (xs.length + 1 - n + (n - 1)) + n := by omega
        rw [hm, Nat.add_div_right _ (Nat.pos_of_ne_zero hn)]
      · have h0 : xs.length + 1 - n = 0 := by omega
        have hm : xs.length + 1 + (n - 1) = xs.length + n := by omega
        rw [h0, hm, Nat.add_div_right _ (Nat.pos_of_ne_zero hn),
          Nat.div_eq_of_lt (by omega), Nat.div_eq_of_lt (by omega)]

theorem length_chunksOf (n : Nat) (hn : n ≠ 0) (l : List α) :
    (chunksOf n l).length = (l.length + (n - 1)) / n :=
  length_chunksOfF n hn l.length l le_rfl

theorem chunksOfF_size_le (n fuel : Nat) (l : List α) :
    ∀ c ∈ chunksOfF n fuel l, c.length ≤ n := by
  induction fuel generalizing l with
  | zero => simp [chunksOfF]
  | succ fuel ih =>
    match l with
    | [] => simp [chunksOfF]
    | x :: xs =>
      intro c hc
      rcases List.mem_cons.mp hc with rfl | hmem
      · simp
      · exact ih ((x :: xs).drop n) c hmem

theorem chunksOf_size_le (n : Nat) (l : List α) :
    ∀ c ∈ chunksOf n l, c.length ≤ n :=
  chunksOfF_size_le n l.length l

theorem issueChunks_all_ok (cs : List (List Row)) (i : Nat) :
    issueChunks (fun _ => .ok ()) cs i = (cs, none) := by
  induction cs generalizing i with
  | nil => rfl
  | cons c cs ih => simp [issueChunks, ih]

/-- When every index the map visits is in range, the row construction is the
index-aligned `zipWith` of the vectors with the documents from `idx` on. -/
theorem makeRowsAux_eq_zipWith (documents : List Document) (vs : List (List Rat)) (idx : Nat)
    (h : idx + vs.length ≤ documents.length) :
    makeRowsAux documents vs idx =
      some (vs.zipWith (fun v d => ⟨d.pageContent, v, d.metadata⟩) (documents.drop idx)) := by
  induction vs generalizing idx with
  | nil => simp [makeRowsAux]
  | cons v vs ih =>
    have hidx : idx < documents.length := by
      simp only [List.length_cons] at h
      omega
    rw [makeRowsAux, List.getElem?_eq_getElem hidx,
      ih (idx + 1) (by simp only [List.length_cons] at h ⊢; omega),
      List.drop_eq_getElem_cons hidx]
    rfl

/-- When fewer vectors than documents are supplied, the rows form without a
thrown error: the index-aligned pairing over the `vectors` array. -/
theorem makeRows_eq_zipWith (vectors : List (List Rat)) (documents : List Document)
    (h : vectors.length ≤ documents.length) :
    makeRows vectors documents =
      some (vectors.zipWith (fun v d => ⟨d.pageContent, v, d.metadata⟩) documents) := by
  rw [makeRows, makeRowsAux_eq_zipWith documents vectors 0 (by omega), List.drop_zero]

/-- When more vectors than documents are supplied, the map reads a property of
`undefined` and the promise rejects with a `TypeError`. -/
theorem makeRowsAux_none (documents : List Document) (vs : List (List Rat)) (idx : Nat)
    (h1 : idx ≤ documents.length) (h2 : documents.length < idx + vs.length) :
    makeRowsAux documents vs idx = none := by
  induction vs generalizing idx with
  | nil =>
    simp only [List.length_nil, Nat.add_zero] at h2
    omega
  | cons v vs ih =>
    rw [makeRowsAux]
    rcases Nat.eq_or_lt_of_le h1 with heq | hlt
    · rw [List.getElem?_eq_none (by omega)]
    · rw [List.getElem?_eq_getElem hlt,
        ih (idx + 1) hlt (by simp only [List.length_cons] at h2 ⊢; omega)]
      rfl

theorem makeRows_none (vectors : List (List Rat)) (documents : List Document)
    (h : documents.length < vectors.length) :
    makeRows vectors documents = none :=
  makeRowsAux_none documents vectors 0 (Nat.zero_le _) (by omega)

/-! ## Claims -/

/-- Claim C1: the spec says search results come back in descending similarity
order with ties broken by ascending row id.  The issued statement has no
`ORDER BY` clause, so the store returns its first `k` rows in row order:
on a table whose rows have similarities `5` then `9`, `k = 2` returns the
results in ascending similarity order, contradicting the claim.  (The
computed `similarity` column and the `LIMIT k` make the ranking intent of
`similaritySearchVectorWithScore` clear; the missing `ORDER BY` is a slip in
the code, not in the spec.) -/
theorem C1_search_results_unordered :
    (searchRun (fun e _ => e.headD 0)
        (.ok [⟨1, "low", [], [(5 : Rat)]⟩, ⟨2, "high", [], [(9 : Rat)]⟩]) [] 2).result =
      .ok [({ pageContent := "low", metadata := [] }, (5 : Rat)),
           ({ pageContent := "high", metadata := [] }, (9 : Rat))] ∧
    ¬((5 : Rat) ≥ 9) := by
  decide

/-- Claim C2: the spec requires any per-chunk write failure to surface as a
typed `WriteError`; the source's `catch (error)` block is empty (its rethrow
is commented out), so a failing chunk write is swallowed and `addVectors`
resolves successfully.  At a one-pair input whose first write fails, the
trace records the swallowed store error while the result is success. -/
theorem C2_write_failure_swallowed :
    (addVectorsRun (fun _ => .error "connection refused") [[1]]
        [{ pageContent := "a", metadata := [] }]).swallowed = some "connection refused" ∧
    (addVectorsRun (fun _ => .error "connection refused") [[1]]
        [{ pageContent := "a", metadata := [] }]).result = .ok () := by
  decide

/-- Claim C3 (counterexample): an embedding provider returning 3 vectors for
4 documents does not make the upsert fail with `EmbeddingMismatchError`
before any write: `addDocuments` performs no count check, the call resolves
successfully, and a chunk write is attempted. -/
theorem C3_no_mismatch_check :
    (addDocumentsRun (fun _ => [[1], [2], [3]]) (fun _ => .ok ())
        [⟨"a", [], none⟩, ⟨"b", [], none⟩, ⟨"c", [], none⟩, ⟨"d", [], none⟩]).result =
      .ok () ∧
    (addDocumentsRun (fun _ => [[1], [2], [3]]) (fun _ => .ok ())
        [⟨"a", [], none⟩, ⟨"b", [], none⟩, ⟨"c", [], none⟩, ⟨"d", [], none⟩]).writes ≠ [] := by
  decide

/-- Claim C3 (amended): `addDocuments` performs no vector-count check.  When
the provider returns at most as many vectors as documents, the call resolves
successfully and (under a store that accepts every write) writes exactly the
index-paired rows, silently dropping the surplus documents; when it returns
more vectors than documents, the call rejects with a runtime `TypeError`
(not an `EmbeddingMismatchError`) before any write is issued. -/
theorem C3_mismatch_behavior (embedDocuments : List String → List (List Rat))
    (storeOk : Nat → Except String Unit) (documents : List Document) :
    ((embedDocuments (documents.map (·.pageContent))).length ≤ documents.length →
      (addDocumentsRun embedDocuments storeOk documents).result = .ok () ∧
      (addDocumentsRun embedDocuments (fun _ => .ok ()) documents).writes.flatten =
        List.zipWith (fun v d => Row.mk d.pageContent v d.metadata)
          (embedDocuments (documents.map (·.pageContent))) documents) ∧
    (documents.length < (embedDocuments (documents.map (·.pageContent))).length →
      (addDocumentsRun embedDocuments storeOk documents).result = .error .typeError ∧
      (addDocumentsRun embedDocuments storeOk documents).writes = []) := by
  constructor
  · intro h
    have hrows := makeRows_eq_zipWith (embedDocuments (documents.map (·.pageContent))) documents h
    constructor
    · simp only [addDocumentsRun, addVectorsRun, hrows]
    · simp only [addDocumentsRun, addVectorsRun, hrows, issueChunks_all_ok]
      exact flatten_chunksOf chunkSize (by decide) _
  · intro h
    have hrows := makeRows_none (embedDocuments (documents.map (·.pageContent))) documents h
    constructor <;> simp only [addDocumentsRun, addVectorsRun, hrows]

/-- Witness for C3 (amended), at two concrete inputs: one vector for two
documents (silent drop and a successful write of the paired row), and two
vectors for one document (a `TypeError`, no write). -/
theorem C3_mismatch_behavior_witness :
    ((addDocumentsRun (fun _ => [[1]]) (fun _ => .ok ())
        [⟨"a", [], none⟩, ⟨"b", [], none⟩]).result = .ok () ∧
      (addDocumentsRun (fun _ => [[1]]) (fun _ => .ok ())
        [⟨"a", [], none⟩, ⟨"b", [], none⟩]).writes.flatten =
        List.zipWith (fun v d => Row.mk d.pageContent v d.metadata) [[1]]
          ([⟨"a", [], none⟩, ⟨"b", [], none⟩] : List Document)) ∧
    ((addDocumentsRun (fun _ => [[1], [2]]) (fun _ => .ok ())
        [⟨"a", [], none⟩]).result = .error .typeError ∧
      (addDocumentsRun (fun _ => [[1], [2]]) (fun _ => .ok ())
        [⟨"a", [], none⟩]).writes = []) :=
  ⟨(C3_mismatch_behavior (fun _ => [[1]]) (fun _ => .ok ())
      [⟨"a", [], none⟩, ⟨"b", [], none⟩]).1 (by decide),
   (C3_mismatch_behavior (fun _ => [[1], [2]]) (fun _ => .ok ())
      [⟨"a", [], none⟩]).2 (by decide)⟩

/-- Claim C4 (counterexample): `search` with `k = 0` still issues its one
query to the store (`SELECT ... LIMIT 0`); there is no short-circuit, so a
store round-trip does occur. -/
theorem C4_zero_k_still_queries :
    (searchRun (fun _ _ => (0 : Rat)) (.ok [⟨1, "a", [], []⟩]) [] 0).storeCalls = 1 := by
  decide

/-- Claim C4 (amended): `search` with `k = 0` returns an empty sequence, but
it reaches the store: exactly one query (with `LIMIT 0`) is issued, for every
table state and query vector. -/
theorem C4_zero_k_empty_result (sim : List Rat → List Rat → Rat)
    (table : List StoredRow) (q : List Rat) :
    (searchRun sim (.ok table) q 0).result = .ok [] ∧
    (searchRun sim (.ok table) q 0).storeCalls = 1 := by
  constructor
  · simp [searchRun, similaritySearchVectorWithScore, runSimilarityQuery, Except.map]
  · rfl

/-- Claim C5: `addVectors` partitions the `n` index-paired rows into chunks
of 200, issuing exactly `ceil(n / 200)` write operations whose concatenation,
in submission order, is exactly the input rows, each chunk holding at most
200 rows. -/
theorem C5_chunking (vectors : List (List Rat)) (documents : List Document)
    (h : vectors.length = documents.length) :
    (addVectorsRun (fun _ => .ok ()) vectors documents).writes.length =
      (vectors.length + 199) / 200 ∧
    (addVectorsRun (fun _ => .ok ()) vectors documents).writes.flatten =
      List.zipWith (fun v d => Row.mk d.pageContent v d.metadata) vectors documents ∧
    (∀ c ∈ (addVectorsRun (fun _ => .ok ()) vectors documents).writes, c.length ≤ 200) := by
  have hrows := makeRows_eq_zipWith vectors documents (le_of_eq h)
  have hwrites : (addVectorsRun (fun _ => .ok ()) vectors documents).writes =
      chunksOf chunkSize
        (List.zipWith (fun v d => Row.mk d.pageContent v d.metadata) vectors documents) := by
    simp only [addVectorsRun, hrows, issueChunks_all_ok]
  refine ⟨?_, ?_, ?_⟩
  · rw [hwrites, length_chunksOf chunkSize (by decide)]
    simp only [List.length_zipWith, h, Nat.min_self, chunkSize]
  · rw [hwrites]
    exact flatten_chunksOf chunkSize (by decide) _
  · rw [hwrites]
    exact chunksOf_size_le chunkSize _

set_option maxRecDepth 4000 in
/-- Witness for C5 at the spec's chunk-boundary inputs: 201 pairs produce two
write operations, 200 pairs produce one. -/
theorem C5_chunking_witness :
    (addVectorsRun (fun _ => .ok ()) (List.replicate 201 [])
        (List.replicate 201 { pageContent := "a", metadata := [] })).writes.length = 2 ∧
    (addVectorsRun (fun _ => .ok ()) (List.replicate 200 [])
        (List.replicate 200 { pageContent := "a", metadata := [] })).writes.length = 1 :=
  ⟨((C5_chunking (List.replicate 201 [])
        (List.replicate 201 { pageContent := "a", metadata := [] }) (by simp)).1).trans
      (by decide),
   ((C5_chunking (List.replicate 200 [])
        (List.replicate 200 { pageContent := "a", metadata := [] }) (by simp)).1).trans
      (by decide)⟩

/-- Claim C6: a query execution failure makes `similaritySearchVectorWithScore`
reject with an error wrapping the underlying cause (the source rethrows
`new Error` with the cause interpolated into its message), and no result list
— in particular no partial one — is ever returned on failure. -/
theorem C6_search_failure_surfaces (sim : List Rat → List Rat → Rat)
    (e : String) (q : List Rat) (k : Nat) :
    (searchRun sim (.error e) q k).result =
      .error (.error ("Error searching for documents: " ++ e)) ∧
    ∀ rs, (searchRun sim (.error e) q k).result ≠ .ok rs :=
  ⟨rfl, fun _ h => Except.noConfusion h⟩

/-- Claim C7 (counterexample): `addDocuments` with an empty document list
still calls the embedding provider once (with the empty text list), so
"makes no embedding-provider call" fails on the code. -/
theorem C7_empty_input_still_embeds :
    (addDocumentsRun (fun _ => []) (fun _ => .ok ()) []).embedCalls = [[]] ∧
    (addDocumentsRun (fun _ => []) (fun _ => .ok ()) []).embedCalls.length = 1 := by
  decide

/-- Claim C7 (amended): an empty-input upsert performs zero store writes and
resolves successfully, both through `addVectors` and through `addDocuments`;
but `addDocuments` still makes its one `embedDocuments` call, passing the
empty text list (the hypothesis pins the provider's answer on that call so
the run is determined). -/
theorem C7_empty_input_noop (embedDocuments : List String → List (List Rat))
    (storeOk : Nat → Except String Unit) (h : embedDocuments [] = []) :
    (addDocumentsRun embedDocuments storeOk []).writes = [] ∧
    (addDocumentsRun embedDocuments storeOk []).result = .ok () ∧
    (addDocumentsRun embedDocuments storeOk []).embedCalls = [[]] ∧
    (addVectorsRun storeOk [] []).writes = [] ∧
    (addVectorsRun storeOk [] []).result = .ok () := by
  refine ⟨?_, ?_, ?_, ?_, ?_⟩ <;>
    simp [addDocumentsRun, addVectorsRun, h, makeRows, makeRowsAux, chunksOf, chunksOfF,
      issueChunks]

/-- Witness for C7 (amended) at a concrete provider and store. -/
theorem C7_empty_input_noop_witness :
    (addDocumentsRun (fun _ => []) (fun _ => .ok ()) []).writes = [] ∧
    (addDocumentsRun (fun _ => []) (fun _ => .ok ()) []).result = .ok () ∧
    (addDocumentsRun (fun _ => []) (fun _ => .ok ()) []).embedCalls = [[]] ∧
    (addVectorsRun (fun _ => .ok ()) [] []).writes = [] ∧
    (addVectorsRun (fun _ => .ok ()) [] []).result = .ok () :=
  C7_empty_input_noop (fun _ => []) (fun _ => .ok ()) rfl

/-- Claim C8: every returned row is mapped to the pair of a `Document`
rebuilt from the row's content and metadata only (its `id` field stays
unset) with the row's similarity value; the store-generated row id is never
read — relabeling every id in the table leaves the search result unchanged. -/
theorem C8_id_dropped (searches : List SearchEmbeddingsResponse) :
    similaritySearchVectorWithScore (.ok searches) =
      .ok (searches.map fun resp =>
        ({ pageContent := resp.content, metadata := resp.metadata, id := none }, resp.similarity)) ∧
    (∀ (resp : SearchEmbeddingsResponse) (i j : Nat),
      mapSearchRow { resp with id := i } = mapSearchRow { resp with id := j }) ∧
    (∀ (sim : List Rat → List Rat → Rat) (table : List StoredRow) (f : Nat → Nat)
      (q : List Rat) (k : Nat),
      (searchRun sim (.ok (table.map fun r => { r with id := f r.id })) q k).result =
        (searchRun sim (.ok table) q k).result) := by
  refine ⟨rfl, fun _ _ _ => rfl, fun sim table f q k => ?_⟩
  simp only [searchRun, similaritySearchVectorWithScore, Except.map, runSimilarityQuery,
    List.map_take, List.map_map]
  congr 1

/-- Claim C9: with no table identifier supplied, every construction path —
the constructor itself, `fromTexts`, `fromDocuments`, `fromExistingIndex` —
resolves the table name to the literal string `"documents"`. -/
theorem C9_default_table_name (embedDocuments : List String → List (List Rat))
    (storeOk : Nat → Except String Unit) (texts : List String)
    (metadatas : Metadata ⊕ List Metadata) (docs : List Document) :
    (PostgresStore.make { tableName := none }).tableName = "documents" ∧
    (fromTexts texts metadatas embedDocuments storeOk { tableName := none }).1.tableName =
      "documents" ∧
    (fromDocuments embedDocuments storeOk docs { tableName := none }).1.tableName =
      "documents" ∧
    (fromExistingIndex { tableName := none }).tableName = "documents" :=
  ⟨rfl, rfl, rfl, rfl⟩

/-- Claim C10: `addVectors` pairs documents to vectors by index over the
`vectors` array: with at most as many vectors as documents the rows form
without error as the index-aligned `zipWith`, exactly `vectors.length` rows
are formed and written, the call resolves successfully, and the surplus
documents appear in no written row. -/
theorem C10_index_pairing (vectors : List (List Rat)) (documents : List Document)
    (h : vectors.length ≤ documents.length) :
    makeRows vectors documents =
      some (List.zipWith (fun v d => Row.mk d.pageContent v d.metadata) vectors documents) ∧
    (addVectorsRun (fun _ => .ok ()) vectors documents).result = .ok () ∧
    (addVectorsRun (fun _ => .ok ()) vectors documents).writes.flatten =
      List.zipWith (fun v d => Row.mk d.pageContent v d.metadata) vectors documents ∧
    (addVectorsRun (fun _ => .ok ()) vectors documents).writes.flatten.length =
      vectors.length := by
  have hrows := makeRows_eq_zipWith vectors documents h
  have hwrites : (addVectorsRun (fun _ => .ok ()) vectors documents).writes =
      chunksOf chunkSize
        (List.zipWith (fun v d => Row.mk d.pageContent v d.metadata) vectors documents) := by
    simp only [addVectorsRun, hrows, issueChunks_all_ok]
  refine ⟨hrows, ?_, ?_, ?_⟩
  · simp only [addVectorsRun, hrows]
  · rw [hwrites]
    exact flatten_chunksOf chunkSize (by decide) _
  · rw [hwrites, flatten_chunksOf chunkSize (by decide)]
    simp only [List.length_zipWith]
    exact Nat.min_eq_left h

/-- Witness for C10 at two vectors and three documents: the third document is
dropped, the two paired rows are written, and the call succeeds. -/
theorem C10_index_pairing_witness :
    makeRows [[1], [2]] [⟨"a", [], none⟩, ⟨"b", [], none⟩, ⟨"c", [], none⟩] =
      some (List.zipWith (fun v d => Row.mk d.pageContent v d.metadata) [[1], [2]]
        ([⟨"a", [], none⟩, ⟨"b", [], none⟩, ⟨"c", [], none⟩] : List Document)) ∧
    (addVectorsRun (fun _ => .ok ()) [[1], [2]]
      [⟨"a", [], none⟩, ⟨"b", [], none⟩, ⟨"c", [], none⟩]).result = .ok () ∧
    (addVectorsRun (fun _ => .ok ()) [[1], [2]]
      [⟨"a", [], none⟩, ⟨"b", [], none⟩, ⟨"c", [], none⟩]).writes.flatten =
      List.zipWith (fun v d => Row.mk d.pageContent v d.metadata) [[1], [2]]
        ([⟨"a", [], none⟩, ⟨"b", [], none⟩, ⟨"c", [], none⟩] : List Document) ∧
    (addVectorsRun (fun _ => .ok ()) [[1], [2]]
      [⟨"a", [], none⟩, ⟨"b", [], none⟩, ⟨"c", [], none⟩]).writes.flatten.length =
      ([[1], [2]] : List (List Rat)).length :=
  C10_index_pairing [[1], [2]] [⟨"a", [], none⟩, ⟨"b", [], none⟩, ⟨"c", [], none⟩] (by decide)

end PostgresVS
